import Mathlib

/-!
Verification of the Chinook MCP server (`chinook_mcp_server.py`): a
shallow embedding of its query gateway, schema introspector and prompt
templates, with theorems about the behaviours the specification claims.

Python strings are modelled as Lean `String`s; `str.upper`/`str.lower`
are modelled on the ASCII range (the SQL text and identifiers the server
handles); `str.strip` removes the ASCII whitespace characters Python
strips. The sqlite3 backend is a parameter: a function from the SQL text
to an outcome (column names and stringified rows, a `sqlite3.Error`, or
another exception). Dataset-connection activity is made observable as an
explicit event list, following the documented semantics of
`sqlite3.Connection` as a context manager: `__exit__` commits or rolls
back the transaction but does not close the connection.
-/

namespace Chinook

/-- The whitespace characters removed by Python `str.strip()` with no
argument: space, tab, newline, carriage return, vertical tab, form feed. -/
def pyIsSpace (c : Char) : Bool :=
  c = ' ' || c = '\t' || c = '\n' || c = '\r' || c = Char.ofNat 11 || c = Char.ofNat 12

/-- Python `str.strip()`: remove leading and trailing whitespace. -/
def pyStrip (s : String) : String :=
  String.mk (((s.data.dropWhile pyIsSpace).reverse.dropWhile pyIsSpace).reverse)

/-- Python `str.upper()`, on the ASCII range. -/
def pyUpper (s : String) : String :=
  String.mk (s.data.map Char.toUpper)

/-- Python `str.startswith(p)`. -/
def pyStartsWith (s : String) (p : String) : Bool :=
  List.isPrefixOf p.data s.data

/-- A Python value as the server's handlers receive it: the argument
kinds inspected with `isinstance` in the source. -/
inductive PyVal where
  | str (s : String)
  | int (n : Int)
  | pyNone
  deriving DecidableEq

/-- Python `identifier.replace('"', '""')` at character level: each
double-quote character is replaced by two of them. -/
def doubleQuotesChars : List Char → List Char
  | [] => []
  | c :: cs => (if c = '"' then ['"', '"'] else [c]) ++ doubleQuotesChars cs

/-- `escape_sql_identifier_local`: wraps the identifier in double quotes
after doubling embedded double quotes; a non-string argument raises
`TypeError("Identifier must be a string")`, modelled as `Except.error`. -/
def escape_sql_identifier_local (identifier : PyVal) : Except String String :=
  match identifier with
  | .str s => .ok ("\"" ++ String.mk (doubleQuotesChars s.data) ++ "\"")
  | _ => .error "Identifier must be a string"

/-- Number of double-quote characters in a string. -/
def countQuote (s : String) : Nat :=
  s.data.countP (fun c => c == '"')

/-- Observable dataset-connection events of one handler call.
`openConn` is `get_db_connection` (`sqlite3.connect`); `execSql` is
`cursor.execute`; `endScope` is the `with` block exit of the
`sqlite3.Connection` context manager, which commits or rolls back the
transaction; `closeConn` would be an explicit `Connection.close()`,
which the source never calls. -/
inductive DbEvent where
  | openConn
  | execSql (sql : String)
  | endScope
  | closeConn
  deriving DecidableEq

/-- Outcome of handing one SQL string to the sqlite3 cursor: column
names (from `cursor.description`) with the fetched rows' cells already
rendered by `str`, or a `sqlite3.Error` message, or the message of any
other exception raised during execution. -/
inductive ExecOutcome where
  | ok (cols : List String) (rows : List (List String))
  | sqlError (msg : String)
  | otherError (msg : String)
  deriving DecidableEq

/-- `"-" * n`. -/
def dashes (n : Nat) : String :=
  String.mk (List.replicate n '-')

/-- The result-building loop of `run_sql_query` for a nonempty row set:
a `"Query Results:"` line, the comma-space-joined column names, a dash
underline of the header line's length, then one line per row. -/
def formatResults (column_names : List String) (rows : List (List String)) : String :=
  let header := String.intercalate ", " column_names
  rows.foldl (fun acc row => acc ++ (String.intercalate ", " row ++ "\n"))
    ("Query Results:\n" ++ (header ++ "\n") ++ (dashes header.length ++ "\n"))

/-- `run_sql_query`, the single MCP tool. `exec` is the sqlite3
backend's behaviour on this call. Returns the result string together
with the dataset events the call performed, in order. -/
def run_sql_query (exec : String → ExecOutcome) (sql_query : String) :
    String × List DbEvent :=
  if ¬ pyStartsWith (pyUpper (pyStrip sql_query)) "SELECT" then
    ("Error: Only SELECT queries are allowed.", [])
  else
    let events := [DbEvent.openConn, DbEvent.execSql sql_query, DbEvent.endScope]
    match exec sql_query with
    | .ok cols rows =>
      if rows.isEmpty then
        ("Query executed successfully, but returned no results.", events)
      else
        (formatResults cols rows, events)
    | .sqlError e => ("SQL Error: " ++ e, events)
    | .otherError e => ("An unexpected error occurred: " ++ e, events)

/-- One row of the `sqlite_master` catalog: an object name and type. -/
structure CatalogEntry where
  name : String
  objType : String
  deriving DecidableEq

/-- One row of `PRAGMA table_info`: column name, declared type, and the
integer `pk` and `notnull` flags sqlite reports; `dflt_value` is `NULL`
or a rendered default value. List order is `cid` order. -/
structure ColumnInfo where
  name : String
  colType : String
  pk : Nat
  notnull : Nat
  dflt_value : Option String
  deriving DecidableEq

/-- The dataset as the introspector sees it: the `sqlite_master`
catalog and the `PRAGMA table_info` answer for each table name. -/
structure DbModel where
  catalog : List CatalogEntry
  tableInfo : String → List ColumnInfo

/-- SQLite `name LIKE 'sqlite_%'` with default (ASCII case-insensitive)
semantics: `_` matches one arbitrary character and `%` any tail, so a
name matches exactly when it has at least 7 characters and its first six
case-fold to `"sqlite"`. -/
def likeSqlitePercent (name : String) : Bool :=
  decide (7 ≤ name.data.length) && ((name.data.take 6).map Char.toLower == "sqlite".data)

/-- `_get_table_names`: `SELECT name FROM sqlite_master WHERE
type='table' AND name NOT LIKE 'sqlite_%';`, returning the names in
catalog order. -/
def _get_table_names (db : DbModel) : List String :=
  (db.catalog.filter (fun row => row.objType == "table" && ! likeSqlitePercent row.name)).map
    (fun row => row.name)

/-- One column's line in `_get_table_schema`, the suffixes appended in
the source's order (`PRIMARY KEY`, `NOT NULL`, `DEFAULT`); the integer
pragma flags are tested for Python truthiness (non-zero). -/
def colLine (col : ColumnInfo) : String :=
  "  - " ++ col.name ++ " (" ++ col.colType ++ ")"
    ++ (if col.pk ≠ 0 then " PRIMARY KEY" else "")
    ++ (if col.notnull ≠ 0 then " NOT NULL" else "")
    ++ (match col.dflt_value with
        | some v => " DEFAULT " ++ v
        | none => "")
    ++ "\n"

/-- `_get_table_schema`: the formatted schema description of one table.
The `sqlite3.Error` branch of the source (catalog unreadable) does not
arise in this pure catalog model; the remaining logic is translated
exactly. -/
def _get_table_schema (db : DbModel) (table_name : String) : String :=
  if table_name ∉ _get_table_names db then
    "Table '" ++ table_name ++ "' not found."
  else
    let columns := db.tableInfo table_name
    if columns.isEmpty then
      "Table '" ++ table_name ++ "' not found or has no columns."
    else
      columns.foldl (fun acc col => acc ++ colLine col)
        ("Schema for table " ++ table_name ++ ":\n")

/-- `list_tables_schema`, the `schema://chinook/tables` (AllSchemas)
resource: a `"Database Schema:"` heading, then every table's schema
block each followed by a `"---"` separator and a blank line, the whole
passed through `str.strip()`. -/
def list_tables_schema (db : DbModel) : String :=
  let table_names := _get_table_names db
  pyStrip (table_names.foldl
    (fun acc table_name => acc ++ (_get_table_schema db table_name ++ "\n---\n\n"))
    "Database Schema:\n\n")

/-- `get_specific_table_schema`, the `schema://chinook/table/{name}`
resource: one table's schema block, stripped. -/
def get_specific_table_schema (db : DbModel) (table_name : String) : String :=
  pyStrip (_get_table_schema db table_name)

/-- `query_top_artists` prompt: validates that `limit` is a positive
integer and renders the instructional text. The second component is the
call's dataset-event list, empty because the handler performs no
dataset access. -/
def query_top_artists (limit : PyVal) : String × List DbEvent :=
  match limit with
  | .int n =>
    if n < 1 then
      ("Error: limit must be a positive integer.", [])
    else
      ("Can you show me the top " ++ toString n ++ " artists with the most tracks? "
        ++ "You'll likely need to join the 'Artist' and 'Album' tables, then 'Track' table, "
        ++ "group by artist, count tracks, and order by the count descending, limiting to "
        ++ toString n ++ " results using the `run_sql_query` tool.", [])
  | _ => ("Error: limit must be a positive integer.", [])

/-- A string contains another as a contiguous substring. -/
def strContains (hay needle : String) : Prop :=
  ∃ a b : String, hay = a ++ needle ++ b

/-- A concrete sqlite3 backend used to instantiate the theorems:
`SELECT 1` yields the one-column, one-row result sqlite produces for
it; a query over a missing table yields a `sqlite3.Error`; anything
else raises a non-sqlite exception. -/
def chinookStub : String → ExecOutcome := fun q =>
  if q = "SELECT 1" then ExecOutcome.ok ["1"] [["1"]]
  else if q = "SELECT * FROM NoSuchTable" then
    ExecOutcome.sqlError "no such table: NoSuchTable"
  else ExecOutcome.otherError "interrupted"

/-- A small concrete dataset in the shape of the Chinook file: one user
table, one sqlite-internal table, one non-table catalog object. -/
def dbSample : DbModel where
  catalog := [⟨"Artist", "table"⟩, ⟨"sqlite_sequence", "table"⟩, ⟨"AlbumView", "view"⟩]
  tableInfo := fun n =>
    if n = "Artist" then
      [⟨"ArtistId", "INTEGER", 1, 1, none⟩, ⟨"Name", "NVARCHAR(120)", 0, 0, none⟩]
    else []

/-! ### Helper lemmas -/

/-- Two strings whose first characters differ are unequal. -/
theorem ne_of_head_char {s t : String} {c d : Char}
    (hs : s.data.head? = some c) (ht : t.data.head? = some d)
    (hcd : c ≠ d) : s ≠ t := by
  intro h
  subst h
  rw [hs] at ht
  exact hcd (Option.some.inj ht)

/-- `String.join` distributes over a cons cell. -/
theorem join_cons (x : String) (l : List String) :
    String.join (x :: l) = x ++ String.join l := by
  apply String.ext
  simp [String.join_eq, String.data_append]

/-- A left fold appending a rendering of each element equals the initial
accumulator followed by the join of all renderings. -/
theorem foldl_append_eq_join {α : Type} (f : α → String) (init : String) (l : List α) :
    l.foldl (fun acc x => acc ++ f x) init = init ++ String.join (l.map f) := by
  induction l generalizing init with
  | nil => simp [String.join]
  | cons a t ih =>
    rw [List.foldl_cons, ih, List.map_cons, join_cons, String.append_assoc]

/-- A string starting with `"sqlite_"` matches `LIKE 'sqlite_%'`. -/
theorem like_of_sqlite_start (name : String)
    (h : pyStartsWith name "sqlite_" = true) : likeSqlitePercent name = true := by
  rw [pyStartsWith, List.isPrefixOf_iff_prefix] at h
  obtain ⟨t, ht⟩ := h
  rw [likeSqlitePercent, ← ht]
  rw [show ("sqlite_".data : List Char) = ['s', 'q', 'l', 'i', 't', 'e', '_'] from rfl]
  rw [Bool.and_eq_true]
  constructor
  · rw [decide_eq_true_iff]
    simp [List.length_append]
  · rfl

/-! ### Claim theorems -/

/-- Claim C1: an input whose stripped, upper-cased text does not start
with `SELECT` makes `run_sql_query` return exactly the rejection string,
with no dataset event (no connection opened, no statement executed). -/
theorem run_sql_query_rejects_non_select (exec : String → ExecOutcome) (sql_query : String)
    (h : pyStartsWith (pyUpper (pyStrip sql_query)) "SELECT" = false) :
    run_sql_query exec sql_query = ("Error: Only SELECT queries are allowed.", []) := by
  simp [run_sql_query, h]

/-- Witness for C1: `DROP TABLE Artist` fails the gate and is rejected
without dataset access. -/
theorem run_sql_query_rejects_non_select_witness :
    pyStartsWith (pyUpper (pyStrip "DROP TABLE Artist")) "SELECT" = false
      ∧ run_sql_query chinookStub "DROP TABLE Artist"
          = ("Error: Only SELECT queries are allowed.", []) :=
  ⟨by decide, run_sql_query_rejects_non_select chinookStub "DROP TABLE Artist" (by decide)⟩

/-- Doubling the double quotes of a character list exactly doubles its
double-quote count. -/
theorem countP_doubleQuotesChars (cs : List Char) :
    (doubleQuotesChars cs).countP (fun c => c == '"')
      = 2 * cs.countP (fun c => c == '"') := by
  induction cs with
  | nil => rfl
  | cons c cs ih =>
    by_cases hc : c = '"'
    · subst hc
      simp [doubleQuotesChars, List.countP_append, List.countP_cons, ih]
      ring
    · simp [doubleQuotesChars, hc, List.countP_append, List.countP_cons, ih]

/-- Claim C4: on a string, `escape_sql_identifier_local` succeeds with
the input's quotes doubled and one wrapping quote on each side, its
double-quote count is `2·(count in input) + 2` and hence even; on any
non-string value it fails with the `InvalidArgument` message. -/
theorem escape_sql_identifier_local_spec :
    (∀ s : String,
        escape_sql_identifier_local (PyVal.str s)
            = Except.ok ("\"" ++ String.mk (doubleQuotesChars s.data) ++ "\"")
          ∧ countQuote ("\"" ++ String.mk (doubleQuotesChars s.data) ++ "\"")
              = 2 * countQuote s + 2
          ∧ Even (countQuote ("\"" ++ String.mk (doubleQuotesChars s.data) ++ "\"")))
      ∧ (∀ n : Int,
          escape_sql_identifier_local (PyVal.int n)
            = Except.error "Identifier must be a string")
      ∧ escape_sql_identifier_local PyVal.pyNone
          = Except.error "Identifier must be a string" := by
  refine ⟨fun s => ⟨rfl, ?_, ?_⟩, fun n => rfl, rfl⟩
  · rw [countQuote, countQuote, String.data_append, String.data_append]
    rw [List.countP_append, List.countP_append, countP_doubleQuotesChars]
    simp [List.countP_cons]
    ring
  · rw [countQuote, String.data_append, String.data_append]
    rw [List.countP_append, List.countP_append, countP_doubleQuotesChars]
    exact ⟨countQuote s + 1, by simp [countQuote, List.countP_cons]; ring⟩

/-- Claim C7: a table name absent from the table list is described by
exactly the not-found message. -/
theorem table_schema_not_found (db : DbModel) (table_name : String)
    (h : table_name ∉ _get_table_names db) :
    _get_table_schema db table_name = "Table '" ++ table_name ++ "' not found." := by
  simp [_get_table_schema, h]

/-- Witness for C7: `NoSuchTable` on the sample dataset. -/
theorem table_schema_not_found_witness :
    "NoSuchTable" ∉ _get_table_names dbSample
      ∧ _get_table_schema dbSample "NoSuchTable" = "Table 'NoSuchTable' not found." :=
  ⟨by decide, table_schema_not_found dbSample "NoSuchTable" (by decide)⟩

/-- Claim C8: no name starting with `sqlite_` is ever returned by the
table-name query, for any dataset. -/
theorem list_tables_excludes_sqlite (db : DbModel) (name : String)
    (h : pyStartsWith name "sqlite_" = true) :
    name ∉ _get_table_names db := by
  intro hmem
  unfold _get_table_names at hmem
  rw [List.mem_map] at hmem
  obtain ⟨row, hrow, hname⟩ := hmem
  rw [List.mem_filter, Bool.and_eq_true] at hrow
  have hlike := like_of_sqlite_start name h
  rw [← hname] at hlike
  simp [hlike] at hrow

/-- Witness for C8: `sqlite_sequence` is excluded on the sample dataset. -/
theorem list_tables_excludes_sqlite_witness :
    pyStartsWith "sqlite_sequence" "sqlite_" = true
      ∧ "sqlite_sequence" ∉ _get_table_names dbSample :=
  ⟨by decide, list_tables_excludes_sqlite dbSample "sqlite_sequence" (by decide)⟩

/-- A first character survives appending on the right. -/
theorem head_of_append {s t : String} {c : Char} (h : s.data.head? = some c) :
    (s ++ t).data.head? = some c := by
  rw [String.data_append]
  cases hs : s.data with
  | nil => rw [hs] at h; cases h
  | cons a l =>
    rw [hs] at h
    rw [List.cons_append]
    simpa using h

/-- Every formatted nonempty result starts with the letter of the
`"Query Results:"` line. -/
theorem formatResults_head (cols : List String) (rows : List (List String)) :
    (formatResults cols rows).data.head? = some 'Q' := by
  simp only [formatResults]
  rw [foldl_append_eq_join]
  exact head_of_append (head_of_append (head_of_append rfl))

/-- Claim C2 counterexample: `run_sql_query` on `SELECT 1` does not
return just a header, underline and data row — its result carries a
`"Query Results:"` line first (and a trailing newline). -/
theorem run_sql_query_format_counterexample :
    (run_sql_query chinookStub "SELECT 1").1 = "Query Results:\n1\n-\n1\n"
      ∧ (run_sql_query chinookStub "SELECT 1").1 ≠ "1\n-\n1\n"
      ∧ (run_sql_query chinookStub "SELECT 1").1 ≠ "1\n-\n1" :=
  ⟨by decide, by decide, by decide⟩

/-- Claim C2 (amended): past the gate, a query with at least one row
yields a `"Query Results:"` line, then the comma-space-joined header,
then an underline of dashes of the header's length, then one
newline-terminated line per row of comma-space-joined cells. -/
theorem run_sql_query_formats_rows (exec : String → ExecOutcome) (sql_query : String)
    (cols : List String) (rows : List (List String))
    (hgate : pyStartsWith (pyUpper (pyStrip sql_query)) "SELECT" = true)
    (hexec : exec sql_query = ExecOutcome.ok cols rows) (hrows : rows ≠ []) :
    (run_sql_query exec sql_query).1 =
      ("Query Results:\n" ++ (String.intercalate ", " cols ++ "\n")
          ++ (dashes (String.intercalate ", " cols).length ++ "\n"))
        ++ String.join (rows.map (fun row => String.intercalate ", " row ++ "\n")) := by
  have hne : rows.isEmpty = false := by
    cases rows with
    | nil => exact absurd rfl hrows
    | cons r rs => rfl
  simp [run_sql_query, hgate, hexec, hne, formatResults]
  rw [foldl_append_eq_join]

/-- Witness for C2 (amended): the `SELECT 1` scenario, with header
`"1"`, a one-dash underline and the single data row `"1"`. -/
theorem run_sql_query_formats_rows_witness :
    (run_sql_query chinookStub "SELECT 1").1 = "Query Results:\n1\n-\n1\n" := by
  have h := run_sql_query_formats_rows chinookStub "SELECT 1" ["1"] [["1"]]
    (by decide) (by decide) (by decide)
  exact h.trans (by decide)

/-- Claim C3 (code defect): on a successful call the dataset events are
open, execute, context-manager exit, in that order — `closeConn` never
occurs, because `sqlite3.Connection`'s context manager only ends the
transaction and the source never calls `close()`. -/
theorem run_sql_query_never_closes :
    (run_sql_query chinookStub "SELECT 1").2
        = [DbEvent.openConn, DbEvent.execSql "SELECT 1", DbEvent.endScope]
      ∧ DbEvent.closeConn ∉ (run_sql_query chinookStub "SELECT 1").2 :=
  ⟨by decide, by decide⟩

/-- Claim C5: past the gate, a storage-engine rejection is rendered as
`"SQL Error: {message}"` and any other fault as
`"An unexpected error occurred: {message}"`, both returned as strings
(the embedding is a total function — no fault escapes). -/
theorem run_sql_query_renders_errors (exec : String → ExecOutcome) (sql_query e : String)
    (hgate : pyStartsWith (pyUpper (pyStrip sql_query)) "SELECT" = true) :
    (exec sql_query = ExecOutcome.sqlError e →
        (run_sql_query exec sql_query).1 = "SQL Error: " ++ e)
      ∧ (exec sql_query = ExecOutcome.otherError e →
        (run_sql_query exec sql_query).1 = "An unexpected error occurred: " ++ e) := by
  constructor <;> intro hexec <;> simp [run_sql_query, hgate, hexec]

/-- Witness for C5: the missing-table scenario renders a `SQL Error:`
string; a non-sqlite fault renders the unexpected-error string. -/
theorem run_sql_query_renders_errors_witness :
    pyStartsWith (pyUpper (pyStrip "SELECT * FROM NoSuchTable")) "SELECT" = true
      ∧ (run_sql_query chinookStub "SELECT * FROM NoSuchTable").1
          = "SQL Error: no such table: NoSuchTable"
      ∧ (run_sql_query chinookStub "SELECT 2").1
          = "An unexpected error occurred: interrupted" := by
  refine ⟨by decide, ?_, ?_⟩
  · exact ((run_sql_query_renders_errors chinookStub "SELECT * FROM NoSuchTable"
      "no such table: NoSuchTable" (by decide)).1 (by decide)).trans (by decide)
  · exact ((run_sql_query_renders_errors chinookStub "SELECT 2"
      "interrupted" (by decide)).2 (by decide)).trans (by decide)

/-- Claim C6 counterexample: the AllSchemas resource is not the bare
concatenation of the table blocks — it starts with a
`"Database Schema:"` heading and ends with a dangling `"---"`
separator after the last block. -/
theorem list_tables_schema_counterexample :
    list_tables_schema dbSample
        = "Database Schema:\n\nSchema for table Artist:\n  - ArtistId (INTEGER) PRIMARY KEY NOT NULL\n  - Name (NVARCHAR(120))\n\n---"
      ∧ list_tables_schema dbSample
          ≠ "Schema for table Artist:\n  - ArtistId (INTEGER) PRIMARY KEY NOT NULL\n  - Name (NVARCHAR(120))"
      ∧ pyStartsWith (list_tables_schema dbSample) "Schema for table" = false :=
  ⟨by decide, by decide, by decide⟩

/-- Claim C6 (amended): the AllSchemas resource equals the
`"Database Schema:"` heading followed by every table's schema block,
each block (the last included) followed by a `"---"` separator line and
a blank line, the whole stripped of leading and trailing whitespace. -/
theorem list_tables_schema_eq_join (db : DbModel) :
    list_tables_schema db
      = pyStrip ("Database Schema:\n\n"
          ++ String.join ((_get_table_names db).map
              (fun table_name => _get_table_schema db table_name ++ "\n---\n\n"))) := by
  simp only [list_tables_schema]
  rw [foldl_append_eq_join]

/-- Claim C10: any input whose stripped upper-cased text starts with
the six characters `SELECT` — a standalone token or not — passes the
gate: the result is never the rejection string and the raw text is
submitted to the dataset connection for execution. -/
theorem run_sql_query_accepts_select_prefixed (exec : String → ExecOutcome)
    (sql_query : String)
    (h : pyStartsWith (pyUpper (pyStrip sql_query)) "SELECT" = true) :
    (run_sql_query exec sql_query).1 ≠ "Error: Only SELECT queries are allowed."
      ∧ DbEvent.execSql sql_query ∈ (run_sql_query exec sql_query).2 := by
  refine ⟨?_, ?_⟩
  · cases hexec : exec sql_query with
    | ok cols rows =>
      cases hrows : rows.isEmpty
      · simp only [run_sql_query, h]
        simp [hexec, hrows]
        exact ne_of_head_char (formatResults_head cols rows) rfl (by decide)
      · simp only [run_sql_query, h]
        simp [hexec, hrows]
    | sqlError e =>
      simp only [run_sql_query, h]
      simp [hexec]
      exact ne_of_head_char (head_of_append (s := "SQL Error: ") rfl) rfl (by decide)
    | otherError e =>
      simp only [run_sql_query, h]
      simp [hexec]
      exact ne_of_head_char (head_of_append (s := "An unexpected error occurred: ") rfl) rfl
        (by decide)
  · cases hexec : exec sql_query with
    | ok cols rows => cases hrows : rows.isEmpty <;> simp [run_sql_query, h, hexec, hrows]
    | sqlError e => simp [run_sql_query, h, hexec]
    | otherError e => simp [run_sql_query, h, hexec]

/-- Witness for C10: `SELECTIONS FROM t` and the multi-statement
`SELECT 1; DROP TABLE Artist` both pass the gate and are submitted. -/
theorem run_sql_query_accepts_select_prefixed_witness :
    (pyStartsWith (pyUpper (pyStrip "SELECTIONS FROM t")) "SELECT" = true
        ∧ (run_sql_query chinookStub "SELECTIONS FROM t").1
            ≠ "Error: Only SELECT queries are allowed."
        ∧ DbEvent.execSql "SELECTIONS FROM t"
            ∈ (run_sql_query chinookStub "SELECTIONS FROM t").2)
      ∧ (pyStartsWith (pyUpper (pyStrip "SELECT 1; DROP TABLE Artist")) "SELECT" = true
        ∧ (run_sql_query chinookStub "SELECT 1; DROP TABLE Artist").1
            ≠ "Error: Only SELECT queries are allowed."
        ∧ DbEvent.execSql "SELECT 1; DROP TABLE Artist"
            ∈ (run_sql_query chinookStub "SELECT 1; DROP TABLE Artist").2) :=
  ⟨⟨by decide,
    (run_sql_query_accepts_select_prefixed chinookStub "SELECTIONS FROM t" (by decide)).1,
    (run_sql_query_accepts_select_prefixed chinookStub "SELECTIONS FROM t" (by decide)).2⟩,
   ⟨by decide,
    (run_sql_query_accepts_select_prefixed chinookStub "SELECT 1; DROP TABLE Artist"
      (by decide)).1,
    (run_sql_query_accepts_select_prefixed chinookStub "SELECT 1; DROP TABLE Artist"
      (by decide)).2⟩⟩

set_option maxRecDepth 8192 in
/-- Claim C9: `query_top_artists` rejects every non-positive integer
and every non-integer with exactly the error string and no dataset
event; on a positive integer it returns text containing
`"top {limit} artists"`, again with no dataset event. -/
theorem query_top_artists_spec :
    (∀ n : Int, n < 1 →
        query_top_artists (PyVal.int n) = ("Error: limit must be a positive integer.", []))
      ∧ (∀ n : Int, 1 ≤ n →
          strContains (query_top_artists (PyVal.int n)).1
              ("top " ++ toString n ++ " artists")
            ∧ (query_top_artists (PyVal.int n)).2 = [])
      ∧ (∀ s : String,
          query_top_artists (PyVal.str s) = ("Error: limit must be a positive integer.", []))
      ∧ query_top_artists PyVal.pyNone = ("Error: limit must be a positive integer.", []) := by
  refine ⟨fun n hn => by simp [query_top_artists, hn], fun n hn => ⟨?_, ?_⟩,
    fun s => rfl, rfl⟩
  · have hge : ¬ n < 1 := by omega
    simp only [query_top_artists, if_neg hge]
    refine ⟨"Can you show me the ",
      " with the most tracks? "
        ++ "You'll likely need to join the 'Artist' and 'Album' tables, then 'Track' table, "
        ++ "group by artist, count tracks, and order by the count descending, limiting to "
        ++ toString n ++ " results using the `run_sql_query` tool.", ?_⟩
    apply String.ext
    simp only [String.data_append, List.append_assoc, List.cons_append, List.nil_append]
  · have hge : ¬ n < 1 := by omega
    simp [query_top_artists, hge]

/-- Witness for C9: limits 0 and -3 are rejected; limit 5 yields text
containing `"top 5 artists"`. -/
theorem query_top_artists_spec_witness :
    query_top_artists (PyVal.int 0) = ("Error: limit must be a positive integer.", [])
      ∧ query_top_artists (PyVal.int (-3))
          = ("Error: limit must be a positive integer.", [])
      ∧ strContains (query_top_artists (PyVal.int 5)).1 "top 5 artists" := by
  refine ⟨query_top_artists_spec.1 0 (by decide),
    query_top_artists_spec.1 (-3) (by decide), ?_⟩
  have h := (query_top_artists_spec.2.1 5 (by decide)).1
  rw [show ("top " ++ toString (5 : Int) ++ " artists") = "top 5 artists" from rfl] at h
  exact h

end Chinook
